import Mathlib

/-!
Shallow embedding of the macro-representation utility of setup.py
(classes Macro and Macros, plus the string helpers they rely on).

Python strings are modelled as Lean String (the source only ever passes
str or None definitions, so MaybeStr becomes Option String); Python's
ordered dict is modelled as an association list with dict semantics
(assignment to an existing key keeps its position, a new key is appended).
Exceptions (ValueError from the Macro constructor) are modelled by Option:
none is a raised exception.
-/

namespace Setup

/-- Whitespace characters stripped by Python's int() / str.strip()
(restricted to the ASCII whitespace characters; the source never feeds
non-ASCII whitespace). -/
def isPySpace (c : Char) : Bool :=
  c == ' ' || c == '\t' || c == '\n' || c == '\x0d' || c == '\x0b' || c == '\x0c'

/-- Python str.lstrip() with no argument: drop leading whitespace. -/
def pyLStrip (s : String) : String :=
  ⟨s.toList.dropWhile isPySpace⟩

/-- Python str.rstrip() with no argument: drop trailing whitespace. -/
def pyRStrip (s : String) : String :=
  ⟨(s.toList.reverse.dropWhile isPySpace).reverse⟩

/-- Python str.strip() with no argument. -/
def pyStrip (s : String) : String :=
  pyRStrip (pyLStrip s)

/-- Digits of a Python base-10 integer literal after the first digit:
an underscore may appear between two digits (grouping, PEP 515), never
doubled, leading or trailing. Accumulates the value. -/
def digitsCore : List Char → Nat → Option Nat
  | [], acc => some acc
  | '_' :: c :: rest, acc =>
      if c.isDigit then digitsCore rest (acc * 10 + (c.toNat - 48)) else none
  | ['_'], _ => none
  | c :: rest, acc =>
      if c.isDigit then digitsCore rest (acc * 10 + (c.toNat - 48)) else none

/-- A non-empty run of base-10 digits with optional grouping underscores. -/
def pyParseDigits : List Char → Option Nat
  | [] => none
  | c :: rest => if c.isDigit then digitsCore rest (c.toNat - 48) else none

/-- Python int(s, base=10) on a str argument: optional surrounding
whitespace, optional single sign, then digits; none models ValueError. -/
def pyParseInt (s : String) : Option Int :=
  let core : List Char := (((s.toList.dropWhile isPySpace).reverse).dropWhile isPySpace).reverse
  match core with
  | '+' :: rest => (pyParseDigits rest).map (fun n => (n : Int))
  | '-' :: rest => (pyParseDigits rest).map (fun n => -(n : Int))
  | rest => (pyParseDigits rest).map (fun n => (n : Int))

/-- Macro.STRING_ZERO. -/
def STRING_ZERO : String := "0"

/-- Macro.STRING_ONE. -/
def STRING_ONE : String := "1"

/-- The module-level separator TOKEN. -/
def TOKEN : String := " -"

/-- One preprocessor macro: class Macro of setup.py, after its
constructor has run (the fields name, definition, undefine). -/
structure Macro where
  name : String
  definition : Option String
  undefine : Bool
deriving DecidableEq

/-- Macro.is_string_value: true iff the putative value is a string that
int() parses in base 10 to the given value. A none argument models a
non-string (Python None), for which is_string is false. -/
def is_string_value (putative : Option String) (value : Int) : Bool :=
  match putative with
  | none => false
  | some s =>
      match pyParseInt s with
      | none => false
      | some n => n == value

/-- Macro.__init__: raises ValueError (none) on an empty name, otherwise
normalizes: a definition parsing as 0 or 1 is cleared to None, and a
definition parsing as 0 additionally forces undefine. The Python
expression (not string_something or None) and definition evaluates to
None when string_something is truthy and to definition otherwise. -/
def Macro.make (name : String) (definition : Option String) (undefine : Bool) :
    Option Macro :=
  if name = "" then none
  else
    let string_zero : Bool := is_string_value definition 0
    let string_one : Bool := is_string_value definition 1
    let string_something : Bool := string_zero || string_one
    some ⟨name, if string_something then none else definition,
          string_zero || undefine⟩

/-- Macro(None, ...): Python checks `not name`, so a None name also
raises ValueError before any field is set. -/
def Macro.makeFromOptName (name : Option String) (definition : Option String)
    (undefine : Bool) : Option Macro :=
  match name with
  | none => none
  | some s => Macro.make s definition undefine

/-- Macro.to_string: the command-line switch form. u8str is the identity
on str input. -/
def Macro.to_string (mc : Macro) : String :=
  if mc.undefine then "U" ++ mc.name
  else
    match mc.definition with
    | some d => "D" ++ mc.name ++ "=" ++ d
    | none => "D" ++ mc.name

/-- Macro.to_tuple: the (name, value) pair form. -/
def Macro.to_tuple (mc : Macro) : String × String :=
  if mc.undefine then (mc.name, STRING_ZERO)
  else
    match mc.definition with
    | some d => (mc.name, d)
    | none => (mc.name, STRING_ONE)

/-- Macro.__bool__. -/
def Macro.truthy (mc : Macro) : Bool :=
  !mc.undefine

/-- Class Macros: an ordered mapping from macro name to stored value
string, modelled as an association list in insertion order. -/
structure Macros where
  entries : List (String × String)
deriving DecidableEq

/-- Macros(): the empty collection. -/
def Macros.empty : Macros := ⟨[]⟩

/-- Python dict item assignment self[k] = v on an ordered dict:
an existing key keeps its position, a new key is appended. -/
def setItem (l : List (String × String)) (k v : String) :
    List (String × String) :=
  if l.any (fun p => p.1 == k) then
    l.map (fun p => if p.1 == k then (k, v) else p)
  else l ++ [(k, v)]

/-- The value Macros.add stores for a macro: STRING_ZERO when the macro
is falsy (an undef macro), otherwise the Python expression
macro.definition or Macro.STRING_ONE (a None or empty definition gives
STRING_ONE). -/
def addValue (mc : Macro) : String :=
  if mc.truthy then
    match mc.definition with
    | some d => if d == "" then STRING_ONE else d
    | none => STRING_ONE
  else STRING_ZERO

/-- Macros.add: store the derived value under the macro's name and hand
the macro back. -/
def Macros.add (ms : Macros) (mc : Macro) : Macros × Macro :=
  (⟨setItem ms.entries mc.name (addValue mc)⟩, mc)

/-- Macros.define: construct a Macro and add it; a constructor error
propagates. -/
def Macros.define (ms : Macros) (name : String) (definition : Option String)
    (undefine : Bool) : Option (Macros × Macro) :=
  (Macro.make name definition undefine).map (Macros.add ms)

/-- Macros.undefine: builds Macro(name, undefine=True); every extra
keyword argument (modelled by the ignored optional definition value) is
dropped. -/
def Macros.undefine (ms : Macros) (name : String) (_kwargsDefinition : Option String) :
    Option (Macros × Macro) :=
  (Macro.make name none true).map (Macros.add ms)

/-- Macros.delete: remove the entry when present, reporting whether it
was. -/
def Macros.delete (ms : Macros) (name : String) : Macros × Bool :=
  if ms.entries.any (fun p => p.1 == name) then
    (⟨ms.entries.filter (fun p => p.1 != name)⟩, true)
  else (ms, false)

/-- Macros.definition_for: rebuild a Macro from the stored value, or an
undef Macro when the name is absent. -/
def Macros.definition_for (ms : Macros) (name : String) : Option Macro :=
  match ms.entries.find? (fun p => p.1 == name) with
  | none => Macro.make name none true
  | some p => Macro.make name (some p.2) false

/-- Map a fallible function over a list, in order, propagating the
first raised exception (none). -/
def listMapOpt (f : α → Option β) : List α → Option (List β)
  | [] => some []
  | a :: rest =>
      match f a with
      | none => none
      | some b => (listMapOpt f rest).map (fun l => b :: l)

/-- Macros.to_list: one Macro(k, v).to_tuple() per entry, in order; a
constructor error propagates. -/
def Macros.to_list (ms : Macros) : Option (List (String × String)) :=
  listMapOpt (fun p => (Macro.make p.1 (some p.2) false).map Macro.to_tuple)
    ms.entries

/-- Macros.to_string: TOKEN.join of the entries' switch forms, stripped,
prefixed with the leading-whitespace-stripped TOKEN. -/
def Macros.to_string (ms : Macros) : Option String :=
  (listMapOpt (fun p => (Macro.make p.1 (some p.2) false).map Macro.to_string)
      ms.entries).map
    (fun l => pyLStrip TOKEN ++ pyStrip (String.intercalate TOKEN l))

/-- One mutating call on a Macros collection, with the arguments the
claims allow: definitions are strings or None. addOp adds a macro built
by the Macro constructor, as every Macro reaching Macros.add is. -/
inductive Op where
  | defineOp (name : String) (definition : Option String) (undefine : Bool)
  | undefOp (name : String) (kwargsDefinition : Option String)
  | addOp (name : String) (definition : Option String) (undefine : Bool)
  | deleteOp (name : String)

/-- Apply one call to the collection; a ValueError raised by the Macro
constructor leaves the mapping untouched. -/
def applyOp (ms : Macros) : Op → Macros
  | .defineOp n d u =>
      match Macros.define ms n d u with
      | some r => r.1
      | none => ms
  | .undefOp n kw =>
      match Macros.undefine ms n kw with
      | some r => r.1
      | none => ms
  | .addOp n d u =>
      match (Macro.make n d u).map (Macros.add ms) with
      | some r => r.1
      | none => ms
  | .deleteOp n => (Macros.delete ms n).1

/-- A collection built from empty by a sequence of calls. -/
def runOps (ops : List Op) : Macros :=
  ops.foldl applyOp Macros.empty

/-- The stored-value invariant: non-empty, and either a sentinel or a
string that does not parse as the base-10 integer 0 or 1. -/
def goodValue (v : String) : Bool :=
  !(v == "") &&
    (v == STRING_ZERO || v == STRING_ONE ||
      (!is_string_value (some v) 0 && !is_string_value (some v) 1))

/-- Every stored value of the collection satisfies goodValue. -/
def Macros.inv (ms : Macros) : Prop :=
  ∀ p ∈ ms.entries, goodValue p.2 = true

/-- The scenario of claim C1: define NDEBUG, define VERSION=1.2.3,
undefine DEBUG, starting from an empty collection. -/
def scenarioC1 : Macros :=
  runOps [Op.defineOp "NDEBUG" none false,
          Op.defineOp "VERSION" (some "1.2.3") false,
          Op.undefOp "DEBUG" none]

/-! Facts about is_string_value on the concrete strings the claims use. -/

theorem isv_none_zero : is_string_value none 0 = false := rfl

theorem isv_none_one : is_string_value none 1 = false := rfl

theorem isv_zero_zero : is_string_value (some "0") 0 = true := by decide

theorem isv_zero_one : is_string_value (some "0") 1 = false := by decide

theorem isv_one_zero : is_string_value (some "1") 0 = false := by decide

theorem isv_one_one : is_string_value (some "1") 1 = true := by decide

theorem isv_empty_zero : is_string_value (some "") 0 = false := by decide

theorem isv_empty_one : is_string_value (some "") 1 = false := by decide

/-- Claim C1 counterexample: on the scenario collection, to_string does
not return "DNDEBUG -DVERSION=1.2.3 -UDEBUG": the code prefixes the
joined switches with the leading-whitespace-stripped separator token. -/
theorem claimC1_counterexample :
    Macros.to_string scenarioC1 ≠ some "DNDEBUG -DVERSION=1.2.3 -UDEBUG" := by
  decide

/-- Claim C1 (amended): the scenario collection lists
[(NDEBUG,1), (VERSION,1.2.3), (DEBUG,0)] in insertion order, and
to_string returns "-DNDEBUG -DVERSION=1.2.3 -UDEBUG": the switch forms
joined by the token " -", stripped, prefixed by the token with its
leading whitespace stripped. -/
theorem claimC1_amended :
    Macros.to_list scenarioC1 =
        some [("NDEBUG", "1"), ("VERSION", "1.2.3"), ("DEBUG", "0")] ∧
    Macros.to_string scenarioC1 = some "-DNDEBUG -DVERSION=1.2.3 -UDEBUG" := by
  exact ⟨by decide, by decide⟩

/-- Claim C2 counterexample: the string "01" differs from "0" and from
"1", yet define(name, "01") yields a Macro whose tuple value is "1",
not "01": int("01", base=10) parses to 1, triggering the one-sentinel
normalization. -/
theorem claimC2_counterexample :
    "01" ≠ "0" ∧ "01" ≠ "1" ∧
    (Macros.define Macros.empty "A" (some "01") false).map
        (fun r => Macro.to_tuple r.2) ≠ some ("A", "01") := by
  refine ⟨by decide, by decide, by decide⟩

/-- Claim C2 (amended): for every non-empty name and every string X that
does not parse as the base-10 integer 0 nor as the base-10 integer 1,
the Macro returned by define satisfies to_tuple = (name, X). -/
theorem claimC2_amended (name X : String) (h : name ≠ "")
    (h0 : is_string_value (some X) 0 = false)
    (h1 : is_string_value (some X) 1 = false) :
    (Macros.define Macros.empty name (some X) false).map
        (fun r => Macro.to_tuple r.2) = some (name, X) := by
  simp [Macros.define, Macro.make, h, h0, h1, Macros.add, Macro.to_tuple]

/-- Witness for claim C2 (amended) at name A, X hello. -/
theorem claimC2_amended_witness :
    (Macros.define Macros.empty "A" (some "hello") false).map
        (fun r => Macro.to_tuple r.2) = some ("A", "hello") :=
  claimC2_amended "A" "hello" (by decide) (by decide) (by decide)

/-- Claim C3: a definition equal to the string "0" forces the undefined
state, whatever undefine flag is passed: the constructed Macro has
undefine true and definition None. -/
theorem claimC3 (name : String) (flag : Bool) (h : name ≠ "") :
    Macro.make name (some "0") flag = some ⟨name, none, true⟩ := by
  simp [Macro.make, h, isv_zero_zero, isv_zero_one]

/-- Witness for claim C3 at name A with flag false. -/
theorem claimC3_witness :
    Macro.make "A" (some "0") false = some ⟨"A", none, true⟩ :=
  claimC3 "A" false (by decide)

/-- Claim C4: a definition equal to the string "1" with the default
undefine flag is normalized to defined-without-value: definition None,
undefine false. -/
theorem claimC4 (name : String) (h : name ≠ "") :
    Macro.make name (some "1") false = some ⟨name, none, false⟩ := by
  simp [Macro.make, h, isv_one_zero, isv_one_one]

/-- Witness for claim C4 at name A. -/
theorem claimC4_witness :
    Macro.make "A" (some "1") false = some ⟨"A", none, false⟩ :=
  claimC4 "A" (by decide)

/-- Claim C6: Macros.undefine with any extra definition value has the
same effect on the mapping and returns the same Macro as
Macros.define(name, undefine=True): the extra value is ignored. -/
theorem claimC6 (ms : Macros) (name : String) (kw : Option String) :
    Macros.undefine ms name kw = Macros.define ms name none true := rfl

/-- Claim C7: constructing a Macro with the empty name, or with an
absent (None) name, raises ValueError and yields no Macro. -/
theorem claimC7 :
    Macro.make "" none false = none ∧
    Macro.makeFromOptName none none false = none :=
  ⟨by decide, rfl⟩

/-- Claim C8: to_string on the empty collection returns exactly the
separator token with its leading whitespace stripped, "-". -/
theorem claimC8 : Macros.to_string Macros.empty = some "-" := by decide

/-- Claim C5: defining a name with no definition and then asking
definition_for that name rebuilds exactly the Macro that the
constructor gives for definition "1": name, definition None, undefine
false — the no-value and value-"1" cases are indistinguishable once
stored. -/
theorem claimC5 (name : String) (h : name ≠ "") :
    Macros.definition_for (applyOp Macros.empty (Op.defineOp name none false))
        name = Macro.make name (some "1") false ∧
    Macro.make name (some "1") false = some ⟨name, none, false⟩ := by
  constructor
  · simp [applyOp, Macros.define, Macro.make, h, isv_none_zero, isv_none_one,
          Macros.add, addValue, Macro.truthy, setItem, Macros.empty,
          Macros.definition_for, List.find?, STRING_ONE]
  · simp [Macro.make, h, isv_one_zero, isv_one_one]

/-- Witness for claim C5 at name X. -/
theorem claimC5_witness :
    Macros.definition_for (applyOp Macros.empty (Op.defineOp "X" none false))
        "X" = Macro.make "X" (some "1") false ∧
    Macro.make "X" (some "1") false = some ⟨"X", none, false⟩ :=
  claimC5 "X" (by decide)

/-- Claim C10: define(name, "") stores the value "1" (the empty-string
definition is treated as defined-without-value by the or-expression in
add), so to_list yields (name, "1"); yet the Macro handed back by that
define call keeps definition "" and its own to_tuple is (name, ""). -/
theorem claimC10 (name : String) (h : name ≠ "") :
    (Macros.define Macros.empty name (some "") false).map
        (fun r => (r.1, r.2.definition, Macro.to_tuple r.2)) =
      some (⟨[(name, "1")]⟩, some "", (name, "")) ∧
    Macros.to_list ⟨[(name, "1")]⟩ = some [(name, "1")] := by
  constructor
  · simp [Macros.define, Macro.make, h, isv_empty_zero, isv_empty_one,
          Macros.add, addValue, Macro.truthy, setItem, Macros.empty,
          Macro.to_tuple, STRING_ONE]
  · simp [Macros.to_list, listMapOpt, Macro.make, h, isv_one_zero,
          isv_one_one, Macro.to_tuple, STRING_ONE]

/-- The Macro constructor only succeeds on a non-empty name, and then
returns exactly the normalized record. -/
theorem make_eq_some (n : String) (d : Option String) (u : Bool) (hn : n ≠ "") :
    Macro.make n d u =
      some ⟨n, if (is_string_value d 0 || is_string_value d 1) then none else d,
            is_string_value d 0 || u⟩ := by
  simp [Macro.make, hn]

/-- Every value Macros.add derives from a constructor-built Macro
satisfies the stored-value invariant. -/
theorem addValue_good (n : String) (d : Option String) (u : Bool) (mc : Macro)
    (hmk : Macro.make n d u = some mc) : goodValue (addValue mc) = true := by
  have hn : n ≠ "" := by
    intro he
    rw [he] at hmk
    simp [Macro.make] at hmk
  rw [make_eq_some n d u hn] at hmk
  have hmc :
      mc = ⟨n, if (is_string_value d 0 || is_string_value d 1) then none else d,
            is_string_value d 0 || u⟩ := by
    exact (Option.some.inj hmk).symm
  subst hmc
  cases d with
  | none =>
      cases u <;> simp [addValue, Macro.truthy, is_string_value, goodValue,
                        STRING_ZERO, STRING_ONE]
  | some s =>
      cases hz : is_string_value (some s) 0 with
      | true =>
          simp [addValue, Macro.truthy, hz, goodValue, STRING_ZERO]
      | false =>
          cases u with
          | true => simp [addValue, Macro.truthy, hz, goodValue, STRING_ZERO]
          | false =>
              cases ho : is_string_value (some s) 1 with
              | true =>
                  simp [addValue, Macro.truthy, hz, ho, goodValue, STRING_ONE]
              | false =>
                  by_cases hs : s = ""
                  · simp [addValue, Macro.truthy, hz, ho, hs, goodValue,
                          STRING_ONE]
                  · have hsb : (s == "") = false := by simp [hs]
                    simp [addValue, Macro.truthy, hz, ho, hsb, goodValue]

/-- Item assignment preserves the stored-value invariant when the new
value satisfies it. -/
theorem setItem_good (l : List (String × String)) (k v : String)
    (hl : ∀ p ∈ l, goodValue p.2 = true) (hv : goodValue v = true) :
    ∀ p ∈ setItem l k v, goodValue p.2 = true := by
  intro p hp
  unfold setItem at hp
  by_cases hk : l.any (fun q => q.1 == k)
  · rw [if_pos hk] at hp
    rcases List.mem_map.mp hp with ⟨q, hq, he⟩
    by_cases hq1 : (q.1 == k) = true
    · rw [if_pos hq1] at he
      rw [← he]
      exact hv
    · rw [if_neg hq1] at he
      rw [← he]
      exact hl q hq
  · rw [if_neg hk] at hp
    rcases List.mem_append.mp hp with h | h
    · exact hl p h
    · rw [List.mem_singleton.mp h]
      exact hv

/-- Each of the four mutating calls preserves the stored-value
invariant. -/
theorem applyOp_inv (ms : Macros) (op : Op) (h : Macros.inv ms) :
    Macros.inv (applyOp ms op) := by
  cases op with
  | defineOp n d u =>
      simp only [applyOp, Macros.define]
      cases hmk : Macro.make n d u with
      | none => exact h
      | some mc =>
          intro p hp
          exact setItem_good ms.entries mc.name (addValue mc) h
            (addValue_good n d u mc hmk) p hp
  | undefOp n kw =>
      simp only [applyOp, Macros.undefine]
      cases hmk : Macro.make n none true with
      | none => exact h
      | some mc =>
          intro p hp
          exact setItem_good ms.entries mc.name (addValue mc) h
            (addValue_good n none true mc hmk) p hp
  | addOp n d u =>
      simp only [applyOp]
      cases hmk : Macro.make n d u with
      | none => exact h
      | some mc =>
          intro p hp
          exact setItem_good ms.entries mc.name (addValue mc) h
            (addValue_good n d u mc hmk) p hp
  | deleteOp n =>
      simp only [applyOp, Macros.delete]
      by_cases hc : ms.entries.any (fun p => p.1 == n)
      · rw [if_pos hc]
        intro p hp
        exact h p (List.mem_of_mem_filter hp)
      · rw [if_neg hc]
        exact h

/-- Folding any sequence of calls preserves the stored-value
invariant. -/
theorem foldl_inv (ops : List Op) (ms : Macros) (h : Macros.inv ms) :
    Macros.inv (ops.foldl applyOp ms) := by
  induction ops generalizing ms with
  | nil => exact h
  | cons op rest ih => exact ih (applyOp ms op) (applyOp_inv ms op h)

/-- Claim C9: every collection built from empty through define,
undefine, add and delete (with string-or-None definitions) stores only
values that are non-empty and are the sentinel "0", the sentinel "1",
or a definition string that does not parse as the base-10 integer 0 or
1. -/
theorem claimC9 (ops : List Op) : Macros.inv (runOps ops) :=
  foldl_inv ops Macros.empty (by intro p hp; cases hp)

/-- Witness for claim C10 at name FLAG. -/
theorem claimC10_witness :
    (Macros.define Macros.empty "FLAG" (some "") false).map
        (fun r => (r.1, r.2.definition, Macro.to_tuple r.2)) =
      some (⟨[("FLAG", "1")]⟩, some "", ("FLAG", "")) ∧
    Macros.to_list ⟨[("FLAG", "1")]⟩ = some [("FLAG", "1")] :=
  claimC10 "FLAG" (by decide)

end Setup
